import Mathlib

set_option linter.unusedVariables false

/-!
Verification development for a multi-window Electron markdown editor.

The privileged ("main") process keeps a live-window set `openWindows` and a
WeakMap `windowFilePaths` from window objects to the full path each window last
opened or saved.  IPC handlers resolve the sender to a window and invoke
`getFileFromUser` / `saveFileToUser` / `overwriteFile`, which show dialogs, do
file I/O, and send `file-content-ready` / `save-status` events back to exactly
the resolved window.  The renderer (`App.jsx`) decides between overwrite and
save-as (`saveFileDialog`), handles received content (`handleFileContent`) and
derives the HTML-export file name (`exportHtmlDialog`).

The embedding below models window identities as natural numbers, the
`windowFilePaths` WeakMap as an association list keyed by window id, and the
external nondeterminism (dialog results, file-system outcomes) as explicit
parameters.  Each gateway operation returns the list of events it emitted
(each tagged with its destination window), the file writes and reads it
performed, the updated registry, and whether it showed a dialog.
-/

/-- Characters of the final path segment: walk the path, restarting the
accumulator after every separator. -/
def basenameChars : List Char → List Char → List Char
  | [], acc => acc.reverse
  | c :: cs, acc =>
      if c = '/' then basenameChars cs [] else basenameChars cs (c :: acc)

/-- Node `path.basename`: the final path segment (the source applies it to
the full file paths returned by the dialogs, which have no trailing
separator). -/
def basename (p : String) : String :=
  String.mk (basenameChars p.data [])

/-- An IPC event sent from the main process to one renderer window.
`fileContentReady` models `window.webContents.send("file-content-ready",
data, displayFileName, filePath)`; `saveStatus` models
`window.webContents.send("save-status", message, filePath?, displayFileName?)`
where the two optional payload arguments are `none` when the source call
omits them. -/
inductive Event where
  | fileContentReady (dest : Nat) (data : String) (displayFileName : String)
      (filePath : String)
  | saveStatus (dest : Nat) (message : String) (filePath : Option String)
      (displayFileName : Option String)
deriving DecidableEq

/-- Destination window of an event: the window whose `webContents.send` was
called. -/
def Event.dest : Event → Nat
  | .fileContentReady d _ _ _ => d
  | .saveStatus d _ _ _ => d

/-- Whether an event is a `file-content-ready` event. -/
def Event.isContentReady : Event → Bool
  | .fileContentReady _ _ _ _ => true
  | .saveStatus _ _ _ _ => false

/-- The `windowFilePaths` WeakMap, keyed by window id. -/
abbrev Registry := List (Nat × String)

/-- `windowFilePaths.set(window, filePath)`: record or overwrite the binding
for `w`. -/
def setPath (reg : Registry) (w : Nat) (p : String) : Registry :=
  (w, p) :: reg.filter (fun e => e.1 ≠ w)

/-- `windowFilePaths.get(window)`. -/
def getPath (reg : Registry) (w : Nat) : Option String :=
  (reg.find? (fun e => e.1 == w)).map (fun e => e.2)

/-- Observable effect of one gateway operation: events sent (in order), file
writes attempted (path, content), file reads attempted, the registry after
the operation, and whether a native dialog was shown. -/
structure GatewayResult where
  events : List Event
  writes : List (String × String)
  reads : List String
  registry : Registry
  dialogShown : Bool
deriving DecidableEq

/-- Result of an operation that returned early without doing anything
(`if (!window) return;`). -/
def droppedResult (reg : Registry) : GatewayResult :=
  { events := [], writes := [], reads := [], registry := reg,
    dialogShown := false }

/-- `openFile(window, filePath)` from the main process: reads the file as
UTF-8; on error sends a `save-status` event with the error message and leaves
`windowFilePaths` untouched; on success records the binding and sends
`file-content-ready` with the data, base name and full path.  `readResult`
is the outcome of `fs.readFile`. -/
def openFile (window : Nat) (filePath : String)
    (readResult : Except String String) (reg : Registry) : GatewayResult :=
  match readResult with
  | .error errMsg =>
      { events := [.saveStatus window ("Error loading file: " ++ errMsg)
          none none],
        writes := [], reads := [filePath], registry := reg,
        dialogShown := false }
  | .ok data =>
      let displayFileName := basename filePath
      { events := [.fileContentReady window data displayFileName filePath],
        writes := [], reads := [filePath],
        registry := setPath reg window filePath, dialogShown := false }

/-- `getFileFromUser(window)`: returns silently when the sender resolved to
no window; otherwise shows the open dialog (`dialogFiles` is its result) and,
if a nonempty selection came back, opens the first selected file. -/
def getFileFromUser (window : Option Nat) (dialogFiles : Option (List String))
    (readResult : Except String String) (reg : Registry) : GatewayResult :=
  match window with
  | none => droppedResult reg
  | some w =>
      match dialogFiles with
      | some (f :: _) =>
          let r := openFile w f readResult reg
          { r with dialogShown := true }
      | some [] =>
          { events := [], writes := [], reads := [], registry := reg,
            dialogShown := true }
      | none =>
          { events := [], writes := [], reads := [], registry := reg,
            dialogShown := true }

/-- `saveFileToUser(window, content, defaultFileName)` (Save As): returns
silently with no dialog when the sender resolved to no window; otherwise
shows the save dialog (`dialogPath` is its result).  If cancelled, sends the
single cancellation status with no payload.  If a path was chosen, writes the
content there; on write error sends an error status and leaves the registry
untouched; on success records the binding and sends a status carrying the
success message, the chosen path, and its base name.  `writeErr` is the error
of `fs.writeFile`, `none` on success. -/
def saveFileToUser (window : Option Nat) (content : String)
    (defaultFileName : String) (dialogPath : Option String)
    (writeErr : Option String) (reg : Registry) : GatewayResult :=
  match window with
  | none => droppedResult reg
  | some w =>
      match dialogPath with
      | some filePath =>
          match writeErr with
          | some errMsg =>
              { events := [.saveStatus w ("Error saving file: " ++ errMsg)
                  none none],
                writes := [(filePath, content)], reads := [], registry := reg,
                dialogShown := true }
          | none =>
              let displayFileName := basename filePath
              { events := [.saveStatus w
                  ("File successfully saved as \"" ++ displayFileName ++ "\"")
                  (some filePath) (some displayFileName)],
                writes := [(filePath, content)], reads := [],
                registry := setPath reg w filePath, dialogShown := true }
      | none =>
          { events := [.saveStatus w "Save As operation cancelled." none none],
            writes := [], reads := [], registry := reg, dialogShown := true }

/-- `overwriteFile(window, content, fullPath)`: returns silently when the
sender resolved to no window; otherwise writes directly to the supplied path
(no dialog, no registry lookup).  On error sends an error status; on success
sends a status whose message quotes the base name, with no path or
display-name payload.  The registry is never modified. -/
def overwriteFile (window : Option Nat) (content : String) (fullPath : String)
    (writeErr : Option String) (reg : Registry) : GatewayResult :=
  match window with
  | none => droppedResult reg
  | some w =>
      match writeErr with
      | some errMsg =>
          { events := [.saveStatus w ("Error overwriting file: " ++ errMsg)
              none none],
            writes := [(fullPath, content)], reads := [], registry := reg,
            dialogShown := false }
      | none =>
          { events := [.saveStatus w
              ("File successfully saved to \"" ++ basename fullPath ++ "\"")
              none none],
            writes := [(fullPath, content)], reads := [], registry := reg,
            dialogShown := false }

/-! ## Renderer (App.jsx) -/

/-- The welcome template loaded into every freshly mounted editor window
(`defaultMarkdown` in `App.jsx`; the template literal keeps the source
indentation, and its escaped backticks and braces are literal text). -/
def defaultMarkdown : String :=
  "# Welcome to the Secure Markdown Editor\n    ---\n    This is an **Electron + React** app using a secure IPC bridge.\n\n    ### Multi-Window Ready!\n    * Click \x27➕ New Window\x27 below or use the Window menu to open another isolated editor.\n    * File operations (Open/Save) are now completely separate for each window.\n\n    \x60\x60\x60javascript\n    \x2f\x2f Example code block\n    const greet = (name) => \x7b\n        return \x60Hello, $\x7bname\x7d!\x60;\n    \x7d;\n    \x60\x60\x60\n    "

/-- Per-window renderer state (the React state of `App`): markdown source,
rendered HTML, the bound full path (`fileName`, `null` for unsaved
documents), the display name, and the transient status message. -/
structure RendererState where
  markedText : String
  htmlMarkup : String
  fileName : Option String
  displayFileName : String
  saveStatus : Option String
deriving DecidableEq

/-- The state a newly mounted editor window starts from. -/
def initialRendererState : RendererState :=
  { markedText := defaultMarkdown, htmlMarkup := "", fileName := none,
    displayFileName := "Untitled.md", saveStatus := none }

/-- An outgoing IPC request issued by the renderer through the preload
bridge. -/
inductive RendererRequest where
  | openFileDialogRequest
  | newWindowRequest
  | saveFileRequest (content : String) (defaultFileName : String)
  | overwriteFileRequest (content : String) (fullPath : String)
  | updateWindowTitle (title : String)
deriving DecidableEq

/-- `saveFileDialog` in `App.jsx`: if a full path is bound (`fileName` set),
issue a direct overwrite to that path; otherwise issue a Save As request
suggesting the current display name. -/
def saveFileDialog (s : RendererState) : RendererRequest × RendererState :=
  let s2 := { s with saveStatus := some "Saving..." }
  match s.fileName with
  | some fn => (.overwriteFileRequest s.markedText fn, s2)
  | none => (.saveFileRequest s.markedText s.displayFileName, s2)

/-- The effect of `displayFileName.replace(/\.(md|markdown)$/i, '')`: the
regex is anchored at the end of the string, so the (leftmost) match is
exactly a case-insensitive `.markdown` or `.md` suffix; a `.markdown` suffix
is the one removed when present since `.md` cannot also be a suffix then.
The characters before the suffix are untouched. -/
def stripMarkdownSuffix (name : String) : String :=
  let lower := name.data.map Char.toLower
  if List.isSuffixOf ".markdown".data lower then
    String.mk (name.data.take (name.data.length - 9))
  else if List.isSuffixOf ".md".data lower then
    String.mk (name.data.take (name.data.length - 3))
  else name

/-- The default export name computed by `exportHtmlDialog`. -/
def defaultExportName (displayFileName : String) : String :=
  stripMarkdownSuffix displayFileName ++ ".html"

/-- `exportHtmlDialog` in `App.jsx`: derives the default export name from
the display name and issues the ordinary Save As request with the rendered
HTML as content. -/
def exportHtmlDialog (s : RendererState) : RendererRequest × RendererState :=
  (.saveFileRequest s.htmlMarkup (defaultExportName s.displayFileName),
   { s with saveStatus := some "Exporting HTML..." })

/-- `handleFileContent` in `App.jsx`: on `file-content-ready`, store the
text, bind the full path, and set the display name and status. -/
def handleFileContent (s : RendererState) (content : String)
    (receivedDisplayFileName : String) (fullPath : String) : RendererState :=
  { s with
    markedText := content
    fileName := some fullPath
    displayFileName := receivedDisplayFileName
    saveStatus :=
      some ("File \"" ++ receivedDisplayFileName ++ "\" loaded.") }

/-! ## Window lifecycle (main process) -/

/-- Main-process window bookkeeping: the set of live windows
(`openWindows`) and the `windowFilePaths` registry.  `nextWindowId` models
JavaScript object identity: each `new BrowserWindow()` is a fresh object,
so ids are allocated from a counter and never reused, and a fresh id can
never already be a key of the WeakMap. -/
structure AppState where
  nextWindowId : Nat
  openWindows : Finset Nat
  windowFilePaths : Registry
deriving DecidableEq

/-- State at startup, before any window is created. -/
def initialAppState : AppState :=
  { nextWindowId := 0, openWindows := ∅, windowFilePaths := [] }

/-- `createWindow()`: allocate a fresh window, add it to `openWindows`,
return its handle.  No file binding is created for it. -/
def createWindow (s : AppState) : Nat × AppState :=
  (s.nextWindowId,
   { nextWindowId := s.nextWindowId + 1,
     openWindows := insert s.nextWindowId s.openWindows,
     windowFilePaths := s.windowFilePaths })

/-- The `closed` handler registered in `createWindow`:
`openWindows.delete(newWindow)`.  The WeakMap entry is not touched here —
it becomes unreachable with the window object. -/
def onWindowClosed (s : AppState) (w : Nat) : AppState :=
  { s with openWindows := s.openWindows.erase w }

/-- One observable main-process transition: window creation, the `closed`
handler, or the gateway recording a binding for the live window that a
sender resolved to (the `windowFilePaths.set` in `openFile` /
`saveFileToUser`). -/
inductive AppStep where
  | stepCreate
  | stepClose (w : Nat)
  | stepBind (w : Nat) (p : String)

/-- Apply one transition.  A bind is only ever performed for a window the
IPC layer resolved from a live sender. -/
def applyStep (s : AppState) (st : AppStep) : AppState :=
  match st with
  | .stepCreate => (createWindow s).2
  | .stepClose w => onWindowClosed s w
  | .stepBind w p =>
      if w ∈ s.openWindows then
        { s with windowFilePaths := setPath s.windowFilePaths w p }
      else s

/-- Run a sequence of transitions from a state. -/
def runSteps (s : AppState) : List AppStep → AppState
  | [] => s
  | st :: rest => runSteps (applyStep s st) rest

/-- Well-formedness: live windows and registry keys are already-allocated
ids. -/
def WfState (s : AppState) : Prop :=
  (∀ w ∈ s.openWindows, w < s.nextWindowId) ∧
  (∀ e ∈ s.windowFilePaths, e.1 < s.nextWindowId)

/-- Whether `pat` occurs as a contiguous segment of `l` (used to state that
a status message does not contain a full path). -/
def hasSegment (pat : List Char) : List Char → Bool
  | [] => pat.isEmpty
  | c :: cs => pat.isPrefixOf (c :: cs) || hasSegment pat cs

/-! ## Helper lemmas -/

/-- Everything before the last separator is discarded. -/
theorem basenameChars_append_slash (l m : List Char) (acc : List Char) :
    basenameChars (l ++ '/' :: m) acc = basenameChars m [] := by
  induction l generalizing acc with
  | nil => simp [basenameChars]
  | cons c l ih =>
      by_cases hc : c = '/' <;> simp [basenameChars, hc, ih]

/-- On a separator-free list the accumulator is just flushed. -/
theorem basenameChars_no_slash (m acc : List Char) (h : '/' ∉ m) :
    basenameChars m acc = acc.reverse ++ m := by
  induction m generalizing acc with
  | nil => simp [basenameChars]
  | cons c m ih =>
      have hc : c ≠ '/' := fun he => h (he ▸ List.mem_cons_self c m)
      have hm : '/' ∉ m := fun hmem => h (List.mem_cons_of_mem c hmem)
      rw [basenameChars, if_neg hc, ih (c :: acc) hm]
      simp

/-- `basename` returns exactly the final path segment. -/
theorem basename_append_of_no_slash (dir file : String)
    (h : '/' ∉ file.data) : basename (dir ++ "/" ++ file) = file := by
  have hdata : (dir ++ "/" ++ file).data = dir.data ++ '/' :: file.data := by
    simp [String.data_append]
  simp [basename, hdata, basenameChars_append_slash,
    basenameChars_no_slash file.data [] h]

/-- `setPath` followed by `getPath` at the same window yields the path just
recorded. -/
theorem getPath_setPath_self (reg : Registry) (w : Nat) (p : String) :
    getPath (setPath reg w p) w = some p := by
  simp [getPath, setPath, List.find?]

/-- A window id strictly above every registry key has no binding. -/
theorem getPath_eq_none_of_keys_lt (reg : Registry) (n : Nat)
    (h : ∀ e ∈ reg, e.1 < n) : getPath reg n = none := by
  have hfind : reg.find? (fun e => e.1 == n) = none := by
    rw [List.find?_eq_none]
    intro e he
    have := h e he
    simp [Nat.ne_of_lt this]
  simp [getPath, hfind]

/-- The startup state is well formed. -/
theorem wf_initialAppState : WfState initialAppState := by
  constructor <;> simp [initialAppState]

/-- Every main-process transition preserves well-formedness. -/
theorem wf_applyStep (s : AppState) (st : AppStep) (hs : WfState s) :
    WfState (applyStep s st) := by
  obtain ⟨hopen, hreg⟩ := hs
  cases st with
  | stepCreate =>
      refine ⟨?_, ?_⟩
      · intro w hw
        simp only [applyStep, createWindow] at hw ⊢
        rcases Finset.mem_insert.mp hw with h | h
        · omega
        · exact Nat.lt_succ_of_lt (hopen w h)
      · intro e he
        simp only [applyStep, createWindow] at he ⊢
        exact Nat.lt_succ_of_lt (hreg e he)
  | stepClose w =>
      refine ⟨?_, ?_⟩
      · intro x hx
        simp only [applyStep, onWindowClosed] at hx ⊢
        exact hopen x (Finset.mem_of_mem_erase hx)
      · intro e he
        simp only [applyStep, onWindowClosed] at he ⊢
        exact hreg e he
  | stepBind w p =>
      by_cases hw : w ∈ s.openWindows
      · have hstep : applyStep s (.stepBind w p) =
            { s with windowFilePaths := setPath s.windowFilePaths w p } := by
          simp [applyStep, hw]
        rw [hstep]
        refine ⟨hopen, ?_⟩
        intro e he
        simp only [setPath] at he
        rcases List.mem_cons.mp he with h | h
        · subst h; exact hopen w hw
        · exact hreg e (List.mem_of_mem_filter h)
      · have hstep : applyStep s (.stepBind w p) = s := by
          simp [applyStep, hw]
        rw [hstep]
        exact ⟨hopen, hreg⟩

/-- Well-formedness holds along every run. -/
theorem wf_runSteps (steps : List AppStep) (s : AppState) (hs : WfState s) :
    WfState (runSteps s steps) := by
  induction steps generalizing s with
  | nil => exact hs
  | cons st rest ih => exact ih (applyStep s st) (wf_applyStep s st hs)

/-! ## Claim theorems -/

/-- Claim C1: every `file-content-ready` or `save-status` event produced by
an open, save-as or overwrite action requested from window `w` is sent to
`w` and never to any distinct window `w2`: each operation addresses exactly
the window resolved from the requesting sender, and none broadcasts. -/
theorem perWindowDelivery (w w2 : Nat) (hne : w ≠ w2)
    (dialogFiles : Option (List String)) (readResult : Except String String)
    (content defaultFileName fullPath : String)
    (dialogPath writeErr : Option String) (reg : Registry) :
    ((getFileFromUser (some w) dialogFiles readResult reg).events.all
        (fun e => e.dest == w) = true ∧
      (getFileFromUser (some w) dialogFiles readResult reg).events.all
        (fun e => !(e.dest == w2)) = true) ∧
    ((saveFileToUser (some w) content defaultFileName dialogPath writeErr
        reg).events.all (fun e => e.dest == w) = true ∧
      (saveFileToUser (some w) content defaultFileName dialogPath writeErr
        reg).events.all (fun e => !(e.dest == w2)) = true) ∧
    ((overwriteFile (some w) content fullPath writeErr reg).events.all
        (fun e => e.dest == w) = true ∧
      (overwriteFile (some w) content fullPath writeErr reg).events.all
        (fun e => !(e.dest == w2)) = true) := by
  have hbeq : (w == w2) = false := by
    simpa using hne
  rcases dialogFiles with _ | (_ | ⟨f, fs⟩) <;>
    rcases readResult with e | d <;>
    rcases dialogPath with _ | p <;>
    rcases writeErr with _ | er <;>
    simp [getFileFromUser, openFile, saveFileToUser, overwriteFile,
      Event.dest, droppedResult, hbeq]

/-- Claim C1 witness: concrete instance at windows 0 and 1. -/
theorem perWindowDelivery_witness :
    ((getFileFromUser (some 0) (some ["/h/a.md"]) (.ok "hi") []).events.all
        (fun e => e.dest == 0) = true ∧
      (getFileFromUser (some 0) (some ["/h/a.md"]) (.ok "hi") []).events.all
        (fun e => !(e.dest == 1)) = true) ∧
    ((saveFileToUser (some 0) "text" "a.md" (some "/h/b.md") none
        []).events.all (fun e => e.dest == 0) = true ∧
      (saveFileToUser (some 0) "text" "a.md" (some "/h/b.md") none
        []).events.all (fun e => !(e.dest == 1)) = true) ∧
    ((overwriteFile (some 0) "text" "/h/b.md" none []).events.all
        (fun e => e.dest == 0) = true ∧
      (overwriteFile (some 0) "text" "/h/b.md" none []).events.all
        (fun e => !(e.dest == 1)) = true) :=
  perWindowDelivery 0 1 (by decide) (some ["/h/a.md"]) (.ok "hi")
    "text" "a.md" "/h/b.md" (some "/h/b.md") none []

/-- Claim C2: the renderer, not the gateway, routes the save command: with
a bound full path it issues an overwrite request to exactly that path (no
Save As), with no binding it issues a Save As request suggesting the
current display name; after receiving opened content for path `p`, a save
with no intervening Save As requests an overwrite of `p`, and the gateway
then writes to `p`. -/
theorem saveRoutedByRenderer (s : RendererState) :
    (∀ p, s.fileName = some p →
      (saveFileDialog s).1 = .overwriteFileRequest s.markedText p) ∧
    (s.fileName = none →
      (saveFileDialog s).1 =
        .saveFileRequest s.markedText s.displayFileName) ∧
    (∀ content dn p,
      (saveFileDialog (handleFileContent s content dn p)).1 =
        .overwriteFileRequest content p) ∧
    (∀ w content p writeErr reg,
      (overwriteFile (some w) content p writeErr reg).writes =
        [(p, content)]) := by
  refine ⟨?_, ?_, ?_, ?_⟩
  · intro p hp
    simp [saveFileDialog, hp]
  · intro hp
    simp [saveFileDialog, hp]
  · intro content dn p
    simp [saveFileDialog, handleFileContent]
  · intro w content p writeErr reg
    cases writeErr <;> simp [overwriteFile]

/-- Claim C2 witness: a window with `/tmp/a.md` bound saves by overwrite to
that path; a fresh window saves by Save As suggesting `Untitled.md`;
opening `/home/u/a.md` and then saving overwrites `/home/u/a.md`. -/
theorem saveRoutedByRenderer_witness :
    (saveFileDialog
        { markedText := "T", htmlMarkup := "", fileName := some "/tmp/a.md",
          displayFileName := "a.md", saveStatus := none }).1 =
      .overwriteFileRequest "T" "/tmp/a.md" ∧
    (saveFileDialog initialRendererState).1 =
      .saveFileRequest defaultMarkdown "Untitled.md" ∧
    (saveFileDialog
        (handleFileContent initialRendererState "body" "a.md"
          "/home/u/a.md")).1 =
      .overwriteFileRequest "body" "/home/u/a.md" ∧
    (overwriteFile (some 0) "body" "/home/u/a.md" none []).writes =
      [("/home/u/a.md", "body")] := by
  have h1 := saveRoutedByRenderer
    { markedText := "T", htmlMarkup := "", fileName := some "/tmp/a.md",
      displayFileName := "a.md", saveStatus := none }
  have h2 := saveRoutedByRenderer initialRendererState
  exact ⟨h1.1 "/tmp/a.md" rfl, h2.2.1 rfl,
    h2.2.2.1 "body" "a.md" "/home/u/a.md",
    h2.2.2.2 0 "body" "/home/u/a.md" none []⟩

/-- Claim C3 counterexample: with display name `Notes.MARKDOWN` the export
request suggests `Notes.html` (stem case preserved), not the `notes.html`
the claim asserts. -/
theorem exportName_counterexample :
    (exportHtmlDialog
        { markedText := "", htmlMarkup := "<h1>x</h1>", fileName := none,
          displayFileName := "Notes.MARKDOWN", saveStatus := none }).1 =
      RendererRequest.saveFileRequest "<h1>x</h1>" "Notes.html" ∧
    (exportHtmlDialog
        { markedText := "", htmlMarkup := "<h1>x</h1>", fileName := none,
          displayFileName := "Notes.MARKDOWN", saveStatus := none }).1 ≠
      RendererRequest.saveFileRequest "<h1>x</h1>" "notes.html" := by
  exact ⟨by decide, by decide⟩

/-- Claim C3 (amended): Export-HTML derives its default file name by
removing a trailing `.md`/`.markdown` suffix matched case-insensitively
(the case of the remaining stem is preserved) and appending `.html`, and
issues the same Save As request as a normal save with the rendered HTML as
content; it derives `report.html` from `report.md` and `Notes.html` from
`Notes.MARKDOWN`. -/
theorem exportHtmlDerivation (s : RendererState) (stem sfx : String) :
    (exportHtmlDialog s).1 =
      RendererRequest.saveFileRequest s.htmlMarkup
        (defaultExportName s.displayFileName) ∧
    (sfx.data.map Char.toLower = ".markdown".data →
      defaultExportName (stem ++ sfx) = stem ++ ".html") ∧
    (sfx.data.map Char.toLower = ".md".data →
      defaultExportName (stem ++ sfx) = stem ++ ".html") ∧
    defaultExportName "report.md" = "report.html" ∧
    defaultExportName "Notes.MARKDOWN" = "Notes.html" := by
  refine ⟨rfl, ?_, ?_, by decide, by decide⟩
  · intro hsfx
    have hlen : sfx.data.length = 9 := by
      have := congrArg List.length hsfx
      simpa using this
    have hlower : (stem ++ sfx).data.map Char.toLower =
        stem.data.map Char.toLower ++ ".markdown".data := by
      simp [String.data_append, hsfx]
    have hsuf : List.isSuffixOf ".markdown".data
        ((stem ++ sfx).data.map Char.toLower) = true := by
      rw [hlower, List.isSuffixOf_iff_suffix]
      exact List.suffix_append _ _
    simp only [defaultExportName, stripMarkdownSuffix, hsuf, if_pos]
    have htake : (stem ++ sfx).data.take ((stem ++ sfx).data.length - 9) =
        stem.data := by
      simp [String.data_append, hlen]
    rw [htake]
  · intro hsfx
    have hlen : sfx.data.length = 3 := by
      have := congrArg List.length hsfx
      simpa using this
    have hlower : (stem ++ sfx).data.map Char.toLower =
        stem.data.map Char.toLower ++ ".md".data := by
      simp [String.data_append, hsfx]
    have hnotmarkdown : List.isSuffixOf ".markdown".data
        ((stem ++ sfx).data.map Char.toLower) = false := by
      rw [hlower]
      rw [Bool.eq_false_iff]
      intro hcon
      rw [List.isSuffixOf_iff_suffix] at hcon
      obtain ⟨t, ht⟩ := hcon
      have hlast := congrArg List.getLast? ht
      rw [List.getLast?_append, List.getLast?_append] at hlast
      simp at hlast
    have hsuf : List.isSuffixOf ".md".data
        ((stem ++ sfx).data.map Char.toLower) = true := by
      rw [hlower, List.isSuffixOf_iff_suffix]
      exact List.suffix_append _ _
    simp only [defaultExportName, stripMarkdownSuffix, hnotmarkdown,
      Bool.false_eq_true, if_neg, hsuf, if_pos]
    have htake : (stem ++ sfx).data.take ((stem ++ sfx).data.length - 3) =
        stem.data := by
      simp [String.data_append, hlen]
    rw [htake]
    simp

/-- Claim C3 (amended) witness: concrete instances of the conditional
conjuncts. -/
theorem exportHtmlDerivation_witness :
    defaultExportName ("Notes" ++ ".MARKDOWN") = "Notes" ++ ".html" ∧
    defaultExportName ("report" ++ ".md") = "report" ++ ".html" := by
  have h := exportHtmlDerivation initialRendererState "Notes" ".MARKDOWN"
  have h2 := exportHtmlDerivation initialRendererState "report" ".md"
  exact ⟨h.2.1 (by decide), h2.2.2.1 (by decide)⟩

/-- Claim C4: a Save As in which the user chooses a path and the write
succeeds updates the requesting window's binding to the chosen path and
emits to that window a single status event carrying the success message,
the new full path, and its display name — the path's final segment. -/
theorem saveAsSuccess (w : Nat) (content defaultFileName filePath : String)
    (reg : Registry) :
    saveFileToUser (some w) content defaultFileName (some filePath) none
        reg =
      { events := [.saveStatus w
          ("File successfully saved as \"" ++ basename filePath ++ "\"")
          (some filePath) (some (basename filePath))],
        writes := [(filePath, content)], reads := [],
        registry := setPath reg w filePath, dialogShown := true } ∧
    getPath (setPath reg w filePath) w = some filePath ∧
    (∀ dir file : String, '/' ∉ file.data →
      basename (dir ++ "/" ++ file) = file) := by
  exact ⟨rfl, getPath_setPath_self reg w filePath,
    fun dir file hf => basename_append_of_no_slash dir file hf⟩

/-- Claim C4 witness: the display name sent for `/home/u/n.md` is its final
segment `n.md`, and the binding lookup returns the chosen path. -/
theorem saveAsSuccess_witness :
    getPath (setPath [] 2 "/home/u/n.md") 2 = some "/home/u/n.md" ∧
    basename ("/home/u" ++ "/" ++ "n.md") = "n.md" := by
  have h := saveAsSuccess 2 "text" "Untitled.md" "/home/u/n.md" []
  exact ⟨h.2.1, h.2.2 "/home/u" "n.md" (by decide)⟩

/-- Claim C5: a cancelled Save As leaves every window's binding unchanged,
writes no file, and emits exactly one status event to the requesting
window — the cancellation message with no path or display-name payload. -/
theorem saveAsCancelled (w : Nat) (content defaultFileName : String)
    (writeErr : Option String) (reg : Registry) :
    saveFileToUser (some w) content defaultFileName none writeErr reg =
      { events := [.saveStatus w "Save As operation cancelled." none none],
        writes := [], reads := [], registry := reg, dialogShown := true } ∧
    (saveFileToUser (some w) content defaultFileName none writeErr
      reg).events.length = 1 ∧
    (∀ w2, getPath (saveFileToUser (some w) content defaultFileName none
      writeErr reg).registry w2 = getPath reg w2) := by
  exact ⟨rfl, rfl, fun w2 => rfl⟩

/-- Claim C6: a failed read emits a single status event carrying the error
message to the originating window only, emits no `file-content-ready`
event, and alters no window's binding; `file-content-ready` (with the
data, display name and full path) is emitted only when the read
succeeds. -/
theorem readFailureStatusOnly (w : Nat) (filePath errMsg data : String)
    (reg : Registry) :
    openFile w filePath (.error errMsg) reg =
      { events := [.saveStatus w ("Error loading file: " ++ errMsg)
          none none],
        writes := [], reads := [filePath], registry := reg,
        dialogShown := false } ∧
    (openFile w filePath (.error errMsg) reg).events.all
      (fun e => !e.isContentReady) = true ∧
    (∀ w2, getPath (openFile w filePath (.error errMsg) reg).registry w2 =
      getPath reg w2) ∧
    openFile w filePath (.ok data) reg =
      { events := [.fileContentReady w data (basename filePath) filePath],
        writes := [], reads := [filePath],
        registry := setPath reg w filePath, dialogShown := false } := by
  exact ⟨rfl, rfl, fun w2 => rfl, rfl⟩

/-- Claim C7: a successful overwrite emits to the requesting window a
status event whose message quotes the target's base name — its final path
segment, not the full path — and the event carries no path or display-name
payload beyond the message text. -/
theorem overwriteReportsBasename (w : Nat) (content fullPath : String)
    (reg : Registry) :
    overwriteFile (some w) content fullPath none reg =
      { events := [.saveStatus w
          ("File successfully saved to \"" ++ basename fullPath ++ "\"")
          none none],
        writes := [(fullPath, content)], reads := [], registry := reg,
        dialogShown := false } ∧
    (overwriteFile (some 7) "x" "/home/user/a.md" none []).events =
      [.saveStatus 7 "File successfully saved to \"a.md\"" none none] ∧
    hasSegment "/home/user/a.md".data
      "File successfully saved to \"a.md\"".data = false := by
  exact ⟨rfl, by decide, by decide⟩

/-- Claim C8: in every reachable main-process state, closing a live window
removes it from the live-window set, and the close handling is idempotent;
a window created afterwards is a fresh identity — it differs from the
closed window, has no file binding, and mounts the default document with
no bound file, so it inherits neither the closed window's binding nor its
text. -/
theorem windowCloseReleasesBinding (steps : List AppStep) (w : Nat)
    (hlive : w ∈ (runSteps initialAppState steps).openWindows) :
    onWindowClosed (onWindowClosed (runSteps initialAppState steps) w) w =
      onWindowClosed (runSteps initialAppState steps) w ∧
    w ∉ (onWindowClosed (runSteps initialAppState steps) w).openWindows ∧
    (createWindow (onWindowClosed (runSteps initialAppState steps) w)).1 ≠
      w ∧
    getPath ((createWindow (onWindowClosed (runSteps initialAppState
        steps) w)).2).windowFilePaths
      ((createWindow (onWindowClosed (runSteps initialAppState
        steps) w)).1) = none ∧
    initialRendererState.markedText = defaultMarkdown ∧
    initialRendererState.fileName = none := by
  obtain ⟨hopen, hreg⟩ :=
    wf_runSteps steps initialAppState wf_initialAppState
  refine ⟨?_, ?_, ?_, ?_, rfl, rfl⟩
  · simp [onWindowClosed, Finset.erase_idem]
  · simp [onWindowClosed]
  · have hw := hopen w hlive
    simp only [createWindow, onWindowClosed]
    omega
  · apply getPath_eq_none_of_keys_lt
    intro e he
    simp only [createWindow, onWindowClosed] at he ⊢
    exact hreg e he

/-- Claim C8 witness: create one window (id 0), close it, create another:
the new window has id 1, no binding, and the default document. -/
theorem windowCloseReleasesBinding_witness :
    onWindowClosed (onWindowClosed (runSteps initialAppState
        [AppStep.stepCreate]) 0) 0 =
      onWindowClosed (runSteps initialAppState [AppStep.stepCreate]) 0 ∧
    0 ∉ (onWindowClosed (runSteps initialAppState
      [AppStep.stepCreate]) 0).openWindows ∧
    (createWindow (onWindowClosed (runSteps initialAppState
      [AppStep.stepCreate]) 0)).1 ≠ 0 ∧
    getPath ((createWindow (onWindowClosed (runSteps initialAppState
        [AppStep.stepCreate]) 0)).2).windowFilePaths
      ((createWindow (onWindowClosed (runSteps initialAppState
        [AppStep.stepCreate]) 0)).1) = none ∧
    initialRendererState.markedText = defaultMarkdown ∧
    initialRendererState.fileName = none :=
  windowCloseReleasesBinding [AppStep.stepCreate] 0 (by
    simp [runSteps, applyStep, createWindow, initialAppState])

/-- Claim C9: an overwrite writes to exactly the path the renderer
supplied, independently of the registry contents (the binding is never
consulted), and leaves the registry unchanged on success and on
failure. -/
theorem overwriteBypassesRegistry (w : Nat) (content fullPath : String)
    (writeErr : Option String) (reg reg2 : Registry) :
    (overwriteFile (some w) content fullPath writeErr reg).writes =
      [(fullPath, content)] ∧
    (overwriteFile (some w) content fullPath writeErr reg).registry =
      reg ∧
    (∀ w2, getPath (overwriteFile (some w) content fullPath writeErr
      reg).registry w2 = getPath reg w2) ∧
    (overwriteFile (some w) content fullPath writeErr reg).events =
      (overwriteFile (some w) content fullPath writeErr reg2).events ∧
    (overwriteFile (some w) content fullPath writeErr reg).writes =
      (overwriteFile (some w) content fullPath writeErr reg2).writes := by
  cases writeErr <;> exact ⟨rfl, rfl, fun w2 => rfl, rfl, rfl⟩

/-- Claim C10: a request whose sender no longer resolves to a live window
is silently dropped by each of the three operations: no dialog, no read,
no write, no event, and an unchanged registry. -/
theorem unresolvedSenderDropped (dialogFiles : Option (List String))
    (readResult : Except String String)
    (content defaultFileName fullPath : String)
    (dialogPath writeErr : Option String) (reg : Registry) :
    getFileFromUser none dialogFiles readResult reg = droppedResult reg ∧
    saveFileToUser none content defaultFileName dialogPath writeErr reg =
      droppedResult reg ∧
    overwriteFile none content fullPath writeErr reg = droppedResult reg ∧
    (droppedResult reg).events = [] ∧
    (droppedResult reg).writes = [] ∧
    (droppedResult reg).reads = [] ∧
    (droppedResult reg).registry = reg ∧
    (droppedResult reg).dialogShown = false := by
  exact ⟨rfl, rfl, rfl, rfl, rfl, rfl, rfl, rfl⟩
